import Mathlib

/-!
Shallow embedding of the authentication / session-refresh subsystem of
`src/backend.py` (class `BackendClient`), together with theorems settling
the specification claims about it.

Modelling conventions:
* Python attribute values (`None`, strings, ints) are modelled by `Val`.
* Python dicts used as credential bundles are modelled by `Bundle`, whose
  fields are `Option Val` (`none` = key absent, `some v` = key present
  with value `v`, where `v` may itself be the Python `None`, i.e. `Val.vnone`).
* The aiohttp session's `headers` dict is modelled as an association list
  with insert-or-update semantics (`hset`).
* Exceptions are modelled with `Except`: `KeyError` from a missing required
  bundle key is `Except.error ()` in `restore_credentials`; the galaxy API
  error kinds raised by HTTP calls are `Err`.
* Times (`datetime.now()`, parsed date strings, epoch timestamps) are
  modelled at integer-second granularity as `Int`.
-/

/-- Python runtime values that flow through the credential fields:
`None`, strings, and ints. -/
inductive Val
  | vnone
  | vstr (s : String)
  | vint (n : Int)
  deriving DecidableEq, Repr

/-- Python truthiness of a `Val` (`bool(v)`): `None`, `""` and `0` are falsy. -/
def Val.truthy : Val → Bool
  | .vnone => false
  | .vstr s => !(s == "")
  | .vint n => !(n == 0)

/-- Python `str(v)`, as used by f-string interpolation of an attribute. -/
def Val.pyStr : Val → String
  | .vnone => "None"
  | .vstr s => s
  | .vint n => toString n

/-- Python `int(v)` restricted to the values that occur in `refresh_time`:
an int converts to itself, a string is parsed (raising `ValueError`, the
`none` case, when unparseable), and `int(None)` raises (`none`). -/
def Val.toIntPy : Val → Option Int
  | .vint n => some n
  | .vstr s => s.toInt?
  | .vnone => none

/-- A headers dict: association list keyed by header name. -/
abbrev Headers := List (String × Val)

/-- Dict insert-or-update (`d[k] = v`): replaces the value at an existing
key in place, otherwise appends the new key at the end (Python dicts keep
insertion order). -/
def hset : Headers → String → Val → Headers
  | [], k, v => [(k, v)]
  | p :: t, k, v => if p.1 == k then (k, v) :: t else p :: hset t k v

/-- Dict lookup (`d.get(k)` as an `Option`). -/
def hget (h : Headers) (k : String) : Option Val :=
  (h.find? (fun p => p.1 == k)).map (fun p => p.2)

/-- Apply a list of `add_to_headers` updates in order. -/
def hsetAll (h : Headers) (upds : List (String × Val)) : Headers :=
  upds.foldl (fun acc kv => hset acc kv.1 kv.2) h

/-- Stands in for `consts.CLUB_APPID` (the `consts` module is an external
collaborator of `backend.py`; the claims never depend on this value). -/
def CLUB_APPID : Val := .vstr "314d4fef-e568-454a-ae06-43e3bece12a6"

/-- Stands in for `consts.CHROME_USERAGENT` (opaque constant; the claims
never depend on this value). -/
def CHROME_USERAGENT : Val := .vstr "Mozilla/5.0 Chrome"

/-- The mutable state of a `BackendClient` instance relevant to the claims:
the credential attributes, the refresh-in-progress flag, whether an
auth-lost callback has been registered, and the session's default headers
dict (`self._session.headers`). -/
structure State where
  token : Val
  session_id : Val
  refresh_token : Val
  refresh_time : Val
  user_id : Val
  user_name : Val
  refresh_in_progress : Bool
  auth_lost_callback : Bool
  headers : Headers
  deriving DecidableEq

/-- The headers dict installed by `BackendClient.__init__`. -/
def initHeaders : Headers :=
  [("Authorization", .vnone),
   ("Ubi-AppId", CLUB_APPID),
   ("User-Agent", CHROME_USERAGENT),
   ("Ubi-SessionId", .vnone)]

/-- `BackendClient.__init__`: all credential attributes `None`, the
refresh-in-progress flag false, no callback, and the initial headers. -/
def initState : State :=
  { token := .vnone
    session_id := .vnone
    refresh_token := .vnone
    refresh_time := .vnone
    user_id := .vnone
    user_name := .vnone
    refresh_in_progress := false
    auth_lost_callback := false
    headers := initHeaders }

/-- A credential bundle / authorization-response dict. A field is `none`
when the key is absent from the dict and `some v` when present with
value `v`. -/
structure Bundle where
  ticket : Option Val
  sessionId : Option Val
  userId : Option Val
  username : Option Val
  refreshTime : Option Val
  rememberMeTicket : Option Val
  deriving DecidableEq

/-- The headers dict assigned by `restore_credentials` (it replaces
`self._session.headers` wholesale with this three-key dict). -/
def restoredHeaders (token session_id : Val) : Headers :=
  [("Ubi-AppId", CLUB_APPID),
   ("Authorization", .vstr ("Ubi_v1 t=" ++ token.pyStr)),
   ("Ubi-SessionId", session_id)]

/-- `BackendClient.restore_credentials(data)`.  Assignments happen
sequentially, exactly as in the Python: `data['ticket']`,
`data['sessionId']` and `data['userId']` raise `KeyError` (`Except.error`)
when the key is absent, and each earlier assignment has already mutated
the state by the time a later lookup raises.  `username` and
`rememberMeTicket` are only assigned when their value is truthy;
`refresh_time` is assigned `data.get('refreshTime', '0')`.  On full
success the session headers are replaced by `restoredHeaders`. -/
def restore_credentials (data : Bundle) (st : State) : Except Unit Unit × State :=
  match data.ticket with
  | none => (.error (), st)
  | some t =>
    let st1 := { st with token := t }
    match data.sessionId with
    | none => (.error (), st1)
    | some sid =>
      let st2 := { st1 with session_id := sid }
      match data.userId with
      | none => (.error (), st2)
      | some uid =>
        let st3 := { st2 with user_id := uid }
        let st4 :=
          if (data.username.getD .vnone).truthy then
            { st3 with user_name := data.username.getD .vnone }
          else st3
        let st5 := { st4 with refresh_time := data.refreshTime.getD (.vstr "0") }
        let st6 :=
          if (data.rememberMeTicket.getD .vnone).truthy then
            { st5 with refresh_token := data.rememberMeTicket.getD .vnone }
          else st5
        (.ok (), { st6 with headers := restoredHeaders st6.token st6.session_id })

/-- The galaxy API error kinds raised by the HTTP layer that matter to the
refresh workflow, plus `other` for any other exception (e.g. the
`ValueError` raised by `int(self.refresh_time)` on an unparseable string,
or a network failure). -/
inductive Err
  | authenticationRequired
  | accessDenied
  | unknownError
  | other
  deriving DecidableEq, Repr

/-- Whether an exception is caught by
`except (AccessDenied, AuthenticationRequired)`. -/
def Err.isAuth : Err → Bool
  | .authenticationRequired => true
  | .accessDenied => true
  | _ => false

/-- The proactive-refresh decision in `_do_request_safe` (lines 78-81):
`refresh_needed = False`; then only when `not self.refresh_token` (Python
falsiness) it is recomputed as
`self.refresh_time is None or datetime.now() > datetime.fromtimestamp(int(self.refresh_time))`.
`Except.error ()` models the `ValueError` raised by `int(...)` on an
unparseable string (propagating out of the decision). -/
def refreshNeeded (now : Int) (st : State) : Except Unit Bool :=
  if !st.refresh_token.truthy then
    if st.refresh_time = .vnone then .ok true
    else
      match st.refresh_time.toIntPy with
      | none => .error ()
      | some t => .ok (decide (now > t))
  else
    .ok false

/-- `BackendClient._do_request(method, *args, **kwargs)`, restricted to its
header handling (the network call result is supplied by `resp`).  When the
caller passes no `headers` kwarg, `kwargs['headers']` is set to
`self._session.headers` — the session's own dict object, so any
`add_to_headers` entries are written into the session's default headers in
place.  When an explicit `headers` dict is passed, `add_to_headers`
entries are written into that dict and the session headers are untouched.
Returns (call result, new session state, the headers dict actually sent). -/
def do_request (explicitHeaders : Option Headers) (addToHeaders : List (String × Val))
    (resp : Except Err Val) (st : State) : Except Err Val × State × Headers :=
  match explicitHeaders with
  | none =>
    let sent := hsetAll st.headers addToHeaders
    (resp, { st with headers := sent }, sent)
  | some h =>
    let sent := hsetAll h addToHeaders
    (resp, st, sent)

/-- Observable event counts of one `_do_request_safe` call. -/
structure Trace where
  /-- number of `_refresh_auth` invocations -/
  refreshes : Nat
  /-- number of `_do_request` invocations -/
  requests : Nat
  /-- number of auth-lost callback invocations -/
  callbacks : Nat
  /-- whether a proactive refresh (the `refresh_needed` branch) ran before
  the request -/
  proactive : Bool
  deriving DecidableEq, Repr

/-- The outer `except` clauses of `_do_request_safe` (lines 93-100):
an `AccessDenied`/`AuthenticationRequired` escaping the `try` block invokes
the auth-lost callback when one is registered, then re-raises; any other
exception is logged and re-raised without the callback. -/
def outerExcept (e : Err) (st : State) (tr : Trace) : Except Err Val × State × Trace :=
  if e.isAuth then
    (.error e, st, { tr with callbacks := if st.auth_lost_callback then 1 else 0 })
  else
    (.error e, st, tr)

/-- `BackendClient._do_request_safe(method, *args, **kwargs)`.  The
sub-operations are parameters: `refresh` is `self._refresh_auth()` and
`request i` is the `i`-th `_do_request(method, *args, **kwargs)` attempt
of this call (both may mutate the state and raise).  Control flow follows
lines 75-101: proactive refresh when `refreshNeeded`, otherwise a direct
attempt with a single refresh-and-retry fallback on
`AccessDenied`/`AuthenticationRequired`; the outer handlers fire the
auth-lost callback on auth errors and re-raise everything. -/
def do_request_safe (refresh : State → Except Err Unit × State)
    (request : Nat → State → Except Err Val × State)
    (now : Int) (st : State) : Except Err Val × State × Trace :=
  match refreshNeeded now st with
  | .error () =>
    -- int() raised ValueError: caught by `except Exception`, re-raised
    (.error .other, st, ⟨0, 0, 0, false⟩)
  | .ok true =>
    match refresh st with
    | (.error e, st1) => outerExcept e st1 ⟨1, 0, 0, true⟩
    | (.ok (), st1) =>
      match request 0 st1 with
      | (.error e, st2) => outerExcept e st2 ⟨1, 1, 0, true⟩
      | (.ok v, st2) => (.ok v, st2, ⟨1, 1, 0, true⟩)
  | .ok false =>
    match request 0 st with
    | (.ok v, st1) => (.ok v, st1, ⟨0, 1, 0, false⟩)
    | (.error e, st1) =>
      if e.isAuth then
        -- fallback refresh (line 88-92)
        match refresh st1 with
        | (.error e2, st2) => outerExcept e2 st2 ⟨1, 1, 0, false⟩
        | (.ok (), st2) =>
          match request 1 st2 with
          | (.error e2, st3) => outerExcept e2 st3 ⟨1, 2, 0, false⟩
          | (.ok v, st3) => (.ok v, st3, ⟨1, 2, 0, false⟩)
      else
        outerExcept e st1 ⟨0, 1, 0, false⟩

/-- State with the refresh-in-progress flag set, as done by the owner on
entry to the else-branch of `_refresh_auth`
(`self.__refresh_in_progress = True`, line 116). -/
def lockState (st : State) : State := { st with refresh_in_progress := true }

/-- `BackendClient._refresh_auth()` for a single caller, with the two
phases (`_refresh_remember_me`, `_refresh_ticket`) and
`self._plugin.store_credentials(self.get_credentials())` supplied as
parameters (each may mutate the state and raise).  A caller that finds
the flag set is a waiter: it polls `asyncio.sleep(0.2)` until the owner
clears the flag and then returns `None` without raising — under the
cooperative scheduler with a terminating owner its eventual outcome is
`.ok ()` with no state change of its own, which is what the waiter branch
returns here (the interleaved two-task behaviour is modelled explicitly
by `sysRun` below).  A caller that finds the flag clear becomes the
owner: it sets the flag, runs phase 1, phase 2 and the credential store,
and the `finally` clears the flag on every exit path. -/
def refresh_auth (p1 p2 store : State → Except Err Unit × State) (st : State) :
    Except Err Unit × State :=
  if st.refresh_in_progress then
    (.ok (), st)
  else
    match p1 (lockState st) with
    | (.error e, st1) => (.error e, { st1 with refresh_in_progress := false })
    | (.ok _, st1) =>
      match p2 st1 with
      | (.error e, st2) => (.error e, { st2 with refresh_in_progress := false })
      | (.ok _, st2) =>
        match store st2 with
        | (.error e, st3) => (.error e, { st3 with refresh_in_progress := false })
        | (.ok _, st3) => (.ok (), { st3 with refresh_in_progress := false })

/-- Program counter of the owning caller inside `_refresh_auth`. -/
inductive OwnerPC
  | phase1
  | phase2
  | storing
  | finished
  deriving DecidableEq, Repr

/-- Configuration of a two-task run of `_refresh_auth`: one owner (which
entered with the flag clear and set it) and one waiter (which entered
while the flag was true and sits in the poll loop). -/
structure Sys where
  flag : Bool
  owner : OwnerPC
  ownerResult : Option (Except Err Unit)
  waiterDone : Bool
  waiterResult : Option (Except Err Unit)
  deriving Repr

/-- One cooperative step of the owner, running the two-phase protocol with
outcomes `p1`, `p2`: a phase failure jumps to the `finally` (clearing the
flag) and the raised error is the owner's outcome; after both phases and
the store the owner returns `None` successfully. -/
def ownerStep (p1 p2 : Except Err Unit) (s : Sys) : Sys :=
  match s.owner with
  | .phase1 =>
    match p1 with
    | .error e => { s with owner := .finished, flag := false, ownerResult := some (.error e) }
    | .ok _ => { s with owner := .phase2 }
  | .phase2 =>
    match p2 with
    | .error e => { s with owner := .finished, flag := false, ownerResult := some (.error e) }
    | .ok _ => { s with owner := .storing }
  | .storing => { s with owner := .finished, flag := false, ownerResult := some (.ok ()) }
  | .finished => s

/-- One cooperative step of the waiter:
`while self.__refresh_in_progress: await asyncio.sleep(0.2)` — while the
flag is set it keeps sleeping; once clear, the loop exits and its
`_refresh_auth` call returns `None` without raising. -/
def waiterStep (s : Sys) : Sys :=
  if s.waiterDone then s
  else if s.flag then s
  else { s with waiterDone := true, waiterResult := some (.ok ()) }

/-- Initial configuration: the owner has set the flag and is about to run
phase 1; the waiter entered `_refresh_auth` while the flag was true. -/
def sysInit : Sys :=
  { flag := true
    owner := .phase1
    ownerResult := none
    waiterDone := false
    waiterResult := none }

/-- Round-robin cooperative execution of owner then waiter, four turns:
enough for both tasks to finish under every phase outcome. -/
def sysRun (p1 p2 : Except Err Unit) : Sys :=
  let step := fun s => waiterStep (ownerStep p1 p2 s)
  step (step (step (step sysInit)))

/-- The dict produced by the refresh endpoints, as consumed by
`_handle_authorization_response`: the session fields plus the
`expiration` and `serverTime` date strings, modelled already parsed
(`dateutil.parser.parse`) as epoch seconds. -/
structure AuthResponse where
  ticket : Val
  sessionId : Val
  userId : Val
  username : Option Val
  rememberMeTicket : Option Val
  expiration : Int
  serverTime : Int

/-- `BackendClient._handle_authorization_response(j)`:
`refresh_time = datetime.now() + (parse(j['expiration']) - parse(j['serverTime']))`,
`j['refreshTime'] = round(refresh_time.timestamp())` (exact at the
integer-second granularity of the model), then `restore_credentials(j)`. -/
def handle_authorization_response (now : Int) (j : AuthResponse) (st : State) :
    Except Unit Unit × State :=
  restore_credentials
    { ticket := some j.ticket
      sessionId := some j.sessionId
      userId := some j.userId
      username := j.username
      refreshTime := some (.vint (now + (j.expiration - j.serverTime)))
      rememberMeTicket := j.rememberMeTicket } st

/-- The expiry-time decision rule as the SPEC words it (a second
definition, kept separate from `refreshNeeded` which is translated from
the code, for comparison): "if no long-lived refresh token is held,
always refresh. Otherwise refresh only if no expiry timestamp is known,
or the current time is strictly past the expiry timestamp." -/
def specRefreshRule (now : Int) (st : State) : Bool :=
  if !st.refresh_token.truthy then true
  else if st.refresh_time = .vnone then true
  else
    match st.refresh_time.toIntPy with
    | some t => decide (now > t)
    | none => false

/-! Concrete instances used by counterexamples and witnesses. -/

/-- A client state holding no long-lived refresh token (as after
`__init__`) but a known expiry timestamp of 100 that has not yet
passed at `now = 0`. -/
def cexStateC1 : State := { initState with refresh_time := .vint 100 }

/-- A client state holding a long-lived refresh token. -/
def stateWithToken : State := { initState with refresh_token := .vstr "rm" }

/-- A client state holding a long-lived refresh token and a registered
auth-lost callback. -/
def stateWithCallback : State :=
  { initState with refresh_token := .vstr "rm", auth_lost_callback := true }

/-- A client state whose stored expiry timestamp is the int 123. -/
def stateWithTime : State := { initState with refresh_time := .vint 123 }

/-- A bundle carrying only the three required keys. -/
def bundleRequiredOnly : Bundle :=
  { ticket := some (.vstr "tk")
    sessionId := some (.vstr "sid")
    userId := some (.vstr "uid")
    username := none
    refreshTime := none
    rememberMeTicket := none }

/-- A bundle carrying `ticket` but not `sessionId`. -/
def bundleMissingSession : Bundle :=
  { ticket := some (.vstr "tk")
    sessionId := none
    userId := none
    username := none
    refreshTime := none
    rememberMeTicket := none }

/-- A `_refresh_auth` stand-in that always succeeds without touching the
state. -/
def cRefresh : State → Except Err Unit × State := fun s => (.ok (), s)

/-- A `_do_request` stand-in whose first attempt raises
`AuthenticationRequired` and whose retry succeeds. -/
def cRequestFailFirst : Nat → State → Except Err Val × State :=
  fun i s => if i = 0 then (.error .authenticationRequired, s) else (.ok (.vstr "resp"), s)

/-- A `_do_request` stand-in that always succeeds. -/
def cRequestOk : Nat → State → Except Err Val × State :=
  fun _ s => (.ok (.vstr "resp"), s)

/-- A `_do_request` stand-in that always raises `AuthenticationRequired`. -/
def cRequestAuthFail : Nat → State → Except Err Val × State :=
  fun _ s => (.error .authenticationRequired, s)

/-- A server authorization response whose `expiration` is exactly one hour
past its `serverTime` of 5000 (an arbitrary server clock). -/
def cAuthResp : AuthResponse :=
  { ticket := .vstr "newtk"
    sessionId := .vstr "newsid"
    userId := .vstr "uid"
    username := none
    rememberMeTicket := some (.vstr "rm2")
    expiration := 5000 + 3600
    serverTime := 5000 }

/-! ## Helper lemmas -/

/-- Dict update followed by lookup at the same key yields the new value. -/
theorem hget_hset (h : Headers) (k : String) (v : Val) :
    hget (hset h k v) k = some v := by
  induction h with
  | nil => simp [hset, hget, List.find?]
  | cons p t ih =>
    by_cases hp : p.1 == k
    · simp [hset, hp, hget, List.find?]
    · simp only [hset, hp, if_false, Bool.false_eq_true]
      simp only [hget, List.find?, hp] at ih ⊢
      exact ih

/-- The `proactive` flag of a `_do_request_safe` trace records exactly
whether the expiry-time decision (`refreshNeeded`) came out `True`. -/
theorem do_request_safe_proactive (refresh : State → Except Err Unit × State)
    (request : Nat → State → Except Err Val × State) (now : Int) (st : State) :
    (do_request_safe refresh request now st).2.2.proactive =
      ((refreshNeeded now st).toOption.getD false) := by
  unfold do_request_safe outerExcept
  repeat' split
  all_goals simp_all [Except.toOption]

/-! ## C1 — proactive refresh decision in `_do_request_safe` -/

/-- C1 (counterexample): the claim's expiry-time decision rule says a
client holding no long-lived refresh token must ALWAYS refresh, yet for
the state `cexStateC1` (no refresh token, unexpired stored timestamp 100,
current time 0) `_do_request_safe` performs no proactive refresh: the code
guards the whole expiry test with `if not self.refresh_token`, so the
stated rule is false of the code. -/
theorem C1_counterexample :
    cexStateC1.refresh_token = .vnone ∧
    specRefreshRule 0 cexStateC1 = true ∧
    (do_request_safe cRefresh cRequestOk 0 cexStateC1).2.2.proactive = false :=
  ⟨rfl, rfl, rfl⟩

/-- C1 (amended): a proactive refresh is performed before the request
exactly when NO long-lived refresh token is held AND (no expiry timestamp
is known, or the current time is strictly past that timestamp); whenever
a refresh token is held, no proactive refresh happens. -/
theorem C1_proactive_refresh_rule (refresh : State → Except Err Unit × State)
    (request : Nat → State → Except Err Val × State) (now : Int) (st : State)
    (t : Int) (hparse : st.refresh_time = .vnone ∨ st.refresh_time.toIntPy = some t) :
    (do_request_safe refresh request now st).2.2.proactive =
      (!st.refresh_token.truthy &&
        (decide (st.refresh_time = .vnone) || decide (now > t))) := by
  rw [do_request_safe_proactive]
  unfold refreshNeeded
  rcases hparse with h | h
  · cases htr : st.refresh_token.truthy <;> simp [h, htr, Except.toOption]
  · have hne : st.refresh_time ≠ .vnone := by
      intro he
      rw [he] at h
      simp [Val.toIntPy] at h
    cases htr : st.refresh_token.truthy <;>
      simp [h, htr, hne, Except.toOption]

/-- C1 witness: at time 200 (past the stored timestamp 100) with no
refresh token held, the amended rule evaluates to a performed proactive
refresh. -/
theorem C1_proactive_refresh_rule_witness :
    (do_request_safe cRefresh cRequestOk 200 cexStateC1).2.2.proactive =
      (!cexStateC1.refresh_token.truthy &&
        (decide (cexStateC1.refresh_time = .vnone) || decide ((200 : Int) > 100))) :=
  C1_proactive_refresh_rule cRefresh cRequestOk 200 cexStateC1 100 (Or.inr rfl)

/-! ## C2 — phase failures are not propagated to waiters -/

/-- C2 (counterexample): in the cooperative two-task run where the owner's
remember-me phase raises `AuthenticationRequired`, the owner's
`_refresh_auth` call raises that error but the waiter's call returns
`None` successfully — the phase failure is NOT received by the waiter,
contrary to the claim. -/
theorem C2_counterexample :
    (sysRun (.error .authenticationRequired) (.ok ())).ownerResult
        = some (.error .authenticationRequired) ∧
    (sysRun (.error .authenticationRequired) (.ok ())).waiterResult
        = some (.ok ()) :=
  ⟨rfl, rfl⟩

/-- C2 (amended): a caller that entered `_refresh_auth` while the
refresh-in-progress flag was true never receives the owner's phase
failure: it waits until the flag clears and then returns normally
(proceeding as if the refresh had succeeded), for every outcome of the
two phases; the phase failure is raised only in the owning caller. -/
theorem C2_waiters_not_notified (p1 p2 : Except Err Unit) :
    (sysRun p1 p2).waiterResult = some (.ok ()) ∧
    (∀ e, p1 = .error e → (sysRun p1 p2).ownerResult = some (.error e)) ∧
    (∀ e, p1 = .ok () → p2 = .error e →
      (sysRun p1 p2).ownerResult = some (.error e)) := by
  cases p1 <;> cases p2 <;>
    simp [sysRun, sysInit, ownerStep, waiterStep]

/-- C2 witness: with the remember-me phase failing with `AccessDenied`,
the waiter still completes successfully while the owner raises. -/
theorem C2_waiters_not_notified_witness :
    (sysRun (.error .accessDenied) (.ok ())).waiterResult = some (.ok ()) ∧
    (sysRun (.error .accessDenied) (.ok ())).ownerResult
        = some (.error .accessDenied) := by
  have h := C2_waiters_not_notified (.error .accessDenied) (.ok ())
  exact ⟨h.1, h.2.1 .accessDenied rfl⟩

/-! ## C3 — exactly one fallback refresh-and-retry -/

/-- C3: per `_do_request_safe` call, at most one `_refresh_auth`
invocation and at most two `_do_request` attempts ever happen (no loop);
and when no proactive refresh was predicted (`refreshNeeded` decided
`False`) and the direct attempt raises `AuthenticationRequired` or
`AccessDenied`, exactly one refresh happens, with exactly one retry
(two attempts total) whenever that refresh returns successfully. -/
theorem C3_single_refresh_retry (refresh : State → Except Err Unit × State)
    (request : Nat → State → Except Err Val × State) (now : Int) (st : State) :
    ((do_request_safe refresh request now st).2.2.refreshes ≤ 1 ∧
     (do_request_safe refresh request now st).2.2.requests ≤ 2) ∧
    (∀ e, refreshNeeded now st = .ok false → (request 0 st).1 = .error e →
      e.isAuth = true →
      (do_request_safe refresh request now st).2.2.refreshes = 1 ∧
      (do_request_safe refresh request now st).2.2.requests ≤ 2 ∧
      ((refresh (request 0 st).2).1 = .ok () →
        (do_request_safe refresh request now st).2.2.requests = 2)) := by
  constructor
  · unfold do_request_safe outerExcept
    repeat' split
    all_goals simp_all
  · intro e hdecide hfail hauth
    unfold do_request_safe outerExcept
    rcases hq : request 0 st with ⟨q, st1⟩
    rw [hq] at hfail
    simp only at hfail
    subst hfail
    simp only [hdecide, hq]
    rcases hr : refresh st1 with ⟨r, st2⟩
    cases r with
    | error e2 =>
      simp_all
      split <;> simp_all
    | ok u =>
      rcases hq2 : request 1 st2 with ⟨q2, st3⟩
      cases q2 with
      | error e3 =>
        simp_all
        split <;> simp_all
      | ok v => simp_all

/-- C3 witness: a state holding a refresh token (so no proactive refresh
is predicted), a first attempt raising `AuthenticationRequired`, a
successful refresh and a successful retry: one refresh, two attempts. -/
theorem C3_single_refresh_retry_witness :
    (do_request_safe cRefresh cRequestFailFirst 0 stateWithToken).2.2.refreshes = 1 ∧
    (do_request_safe cRefresh cRequestFailFirst 0 stateWithToken).2.2.requests = 2 := by
  have h := (C3_single_refresh_retry cRefresh cRequestFailFirst 0 stateWithToken).2
      .authenticationRequired rfl rfl rfl
  exact ⟨h.1, h.2.2 rfl⟩

/-! ## C4 — auth-lost callback fires exactly once, only for auth errors -/

/-- C4: whenever `_do_request_safe` terminates with an error, the
registered auth-lost callback fired exactly once if the error is
`AuthenticationRequired`/`AccessDenied` and a callback was registered,
and did not fire at all otherwise (unregistered callback, any other
exception kind); a successful call never fires it. -/
theorem C4_callback_policy (refresh : State → Except Err Unit × State)
    (request : Nat → State → Except Err Val × State) (now : Int) (st : State)
    (res : Except Err Val) (st2 : State) (tr : Trace)
    (hout : do_request_safe refresh request now st = (res, st2, tr)) :
    (∀ e, res = .error e →
      tr.callbacks = if e.isAuth && st2.auth_lost_callback then 1 else 0) ∧
    (∀ v, res = .ok v → tr.callbacks = 0) := by
  unfold do_request_safe outerExcept at hout
  repeat' split at hout
  all_goals
    injection hout with h1 hrest
  all_goals
    injection hrest with h2 h3
  all_goals
    subst h1 h2 h3
  all_goals
    simp_all [Err.isAuth]

/-- C4 witness: with a registered callback, a refresh-token-holding state
and every attempt raising `AuthenticationRequired`, the call ends with
that error and the callback fired exactly once. -/
theorem C4_callback_policy_witness :
    (do_request_safe cRefresh cRequestAuthFail 0 stateWithCallback).2.2.callbacks = 1 := by
  have h := (C4_callback_policy cRefresh cRequestAuthFail 0 stateWithCallback
      (do_request_safe cRefresh cRequestAuthFail 0 stateWithCallback).1
      (do_request_safe cRefresh cRequestAuthFail 0 stateWithCallback).2.1
      (do_request_safe cRefresh cRequestAuthFail 0 stateWithCallback).2.2
      rfl).1 .authenticationRequired rfl
  simpa using h

/-! ## C5 — flag set before the protocol, cleared on every exit path -/

/-- C5: a caller entering `_refresh_auth` with the flag clear becomes the
owner: the protocol's first phase runs on `lockState st` (the state with
the flag set to true), and whatever the phases and the credential store
do — return or raise — the state `_refresh_auth` terminates with has the
flag false again (the `finally`). -/
theorem C5_flag_guaranteed_release (p1 p2 store : State → Except Err Unit × State)
    (st : State) (h : st.refresh_in_progress = false) :
    (lockState st).refresh_in_progress = true ∧
    (refresh_auth p1 p2 store st).2.refresh_in_progress = false := by
  refine ⟨rfl, ?_⟩
  unfold refresh_auth
  simp only [h]
  repeat' split
  all_goals simp_all

/-- C5 witness: from the freshly initialised state with always-succeeding
phases, the flag is set while the protocol runs and clear afterwards. -/
theorem C5_flag_guaranteed_release_witness :
    (lockState initState).refresh_in_progress = true ∧
    (refresh_auth cRefresh cRefresh cRefresh initState).2.refresh_in_progress = false :=
  C5_flag_guaranteed_release cRefresh cRefresh cRefresh initState rfl

/-! ## C6 — which omitted fields survive `restore_credentials` -/

/-- C6 (counterexample): for the previously populated state
`stateWithTime` (stored `refresh_time` 123) and the bundle
`bundleRequiredOnly` that omits `refreshTime`, `restore_credentials`
succeeds yet overwrites `refresh_time` with the default string `'0'` —
the omitted optional field is NOT left untouched, refuting the claim. -/
theorem C6_counterexample :
    (restore_credentials bundleRequiredOnly stateWithTime).1 = .ok () ∧
    stateWithTime.refresh_time = .vint 123 ∧
    (restore_credentials bundleRequiredOnly stateWithTime).2.refresh_time = .vstr "0" :=
  ⟨rfl, rfl, rfl⟩

/-- C6 (amended): for every previously populated state and bundle carrying
the three required keys, omitting `username` leaves `user_name` untouched
and omitting `rememberMeTicket` leaves `refresh_token` untouched, but
omitting `refreshTime` does not preserve `refresh_time` — it is reset to
the default `'0'`. -/
theorem C6_omitted_fields (st : State) (b : Bundle) (t s u : Val)
    (ht : b.ticket = some t) (hs : b.sessionId = some s) (hu : b.userId = some u) :
    (b.username = none → (restore_credentials b st).2.user_name = st.user_name) ∧
    (b.rememberMeTicket = none →
      (restore_credentials b st).2.refresh_token = st.refresh_token) ∧
    (b.refreshTime = none → (restore_credentials b st).2.refresh_time = .vstr "0") := by
  unfold restore_credentials
  rw [ht, hs, hu]
  refine ⟨?_, ?_, ?_⟩ <;> intro hnone <;> simp [hnone, Val.truthy] <;>
    repeat' split <;> simp_all

/-- C6 witness: at the concrete state and bundle of the counterexample,
`user_name` and `refresh_token` survive while `refresh_time` becomes `'0'`. -/
theorem C6_omitted_fields_witness :
    (restore_credentials bundleRequiredOnly stateWithTime).2.user_name
        = stateWithTime.user_name ∧
    (restore_credentials bundleRequiredOnly stateWithTime).2.refresh_token
        = stateWithTime.refresh_token ∧
    (restore_credentials bundleRequiredOnly stateWithTime).2.refresh_time = .vstr "0" := by
  have h := C6_omitted_fields stateWithTime bundleRequiredOnly
      (.vstr "tk") (.vstr "sid") (.vstr "uid") rfl rfl rfl
  exact ⟨h.1 rfl, h.2.1 rfl, h.2.2 rfl⟩

/-! ## C7 — `restore_credentials` is not atomic; the pair invariant -/

/-- C7 (counterexample): starting from the reachable `__init__` state and
a bundle carrying `ticket` but missing `sessionId`, `restore_credentials`
raises `KeyError` AFTER assigning `self.token`, leaving a state where the
ticket is set (`"tk"`) but the session id is still `None` — a reachable
state with one of the pair present and the other absent, refuting the
claimed atomicity/invariant. -/
theorem C7_counterexample :
    (restore_credentials bundleMissingSession initState).1 = .error () ∧
    (restore_credentials bundleMissingSession initState).2.token = .vstr "tk" ∧
    (restore_credentials bundleMissingSession initState).2.session_id = .vnone :=
  ⟨rfl, rfl, rfl⟩

/-- C7 (amended): `restore_credentials` assigns its fields sequentially,
not atomically.  When the bundle carries all three required keys it
succeeds and sets `token` and `session_id` together to the bundle's
values; but a bundle carrying `ticket` while missing `sessionId` raises
partway, leaving `token` overwritten and `session_id` at its previous
value, so the both-present-or-both-absent invariant is not preserved on
that path. -/
theorem C7_restore_not_atomic (st : State) (b b2 : Bundle) (t s u t2 : Val)
    (ht : b.ticket = some t) (hs : b.sessionId = some s) (hu : b.userId = some u)
    (ht2 : b2.ticket = some t2) (hs2 : b2.sessionId = none) :
    ((restore_credentials b st).1 = .ok () ∧
     (restore_credentials b st).2.token = t ∧
     (restore_credentials b st).2.session_id = s) ∧
    ((restore_credentials b2 st).1 = .error () ∧
     (restore_credentials b2 st).2.token = t2 ∧
     (restore_credentials b2 st).2.session_id = st.session_id) := by
  constructor
  · unfold restore_credentials
    rw [ht, hs, hu]
    refine ⟨rfl, ?_, ?_⟩ <;> repeat' split <;> simp_all
  · unfold restore_credentials
    rw [ht2, hs2]
    exact ⟨rfl, rfl, rfl⟩

/-- C7 witness: at the concrete bundles of the counterexample, the
complete bundle sets both fields and the truncated one breaks the pair. -/
theorem C7_restore_not_atomic_witness :
    ((restore_credentials bundleRequiredOnly initState).1 = .ok () ∧
     (restore_credentials bundleRequiredOnly initState).2.token = .vstr "tk" ∧
     (restore_credentials bundleRequiredOnly initState).2.session_id = .vstr "sid") ∧
    ((restore_credentials bundleMissingSession initState).1 = .error () ∧
     (restore_credentials bundleMissingSession initState).2.token = .vstr "tk" ∧
     (restore_credentials bundleMissingSession initState).2.session_id
        = initState.session_id) :=
  C7_restore_not_atomic initState bundleRequiredOnly bundleMissingSession
    (.vstr "tk") (.vstr "sid") (.vstr "uid") (.vstr "tk") rfl rfl rfl rfl rfl

/-! ## C8 — clock-skew-compensating `refreshTime` -/

/-- C8: `_handle_authorization_response` stores as `refreshTime` the
timestamp `now + (expiration - serverTime)`; in particular, for any
server response whose `expiration` is exactly 3600 seconds past its
`serverTime`, the stored expiry is `now + 3600`, whatever the offset
between the server clock and the local clock. -/
theorem C8_refresh_time_skew (now : Int) (j : AuthResponse) (st : State)
    (hexp : j.expiration = j.serverTime + 3600) :
    (handle_authorization_response now j st).2.refresh_time
        = .vint (now + (j.expiration - j.serverTime)) ∧
    (handle_authorization_response now j st).2.refresh_time = .vint (now + 3600) := by
  have hfield : (handle_authorization_response now j st).2.refresh_time
      = .vint (now + (j.expiration - j.serverTime)) := by
    unfold handle_authorization_response restore_credentials
    repeat' split
    all_goals simp_all
  refine ⟨hfield, ?_⟩
  rw [hfield, hexp]
  congr 1
  ring

/-- C8 witness: local clock at 777, server clock at 5000 (an offset of
4223 seconds), expiration one hour past server time: the stored expiry is
`777 + 3600`. -/
theorem C8_refresh_time_skew_witness :
    (handle_authorization_response 777 cAuthResp initState).2.refresh_time
        = .vint (777 + 3600) :=
  (C8_refresh_time_skew 777 cAuthResp initState rfl).2

/-! ## C9 — headers before and after authentication -/

/-- C9 (counterexample): a successful `restore_credentials` (the tail of
every successful refresh) replaces the session's default headers with a
three-key dict, and the `User-Agent` header is GONE afterwards — contrary
to the claim that the default header set still contains `User-Agent`
after a successful refresh. -/
theorem C9_counterexample :
    (restore_credentials bundleRequiredOnly initState).1 = .ok () ∧
    hget initHeaders "User-Agent" = some CHROME_USERAGENT ∧
    hget (restore_credentials bundleRequiredOnly initState).2.headers "User-Agent"
        = none :=
  ⟨rfl, rfl, rfl⟩

/-- C9 (amended): the `__init__` default headers carry `Ubi-AppId` and
`User-Agent`; after any successful `restore_credentials` (hence after any
successful refresh) the default headers carry `Ubi-AppId`,
`Authorization: Ubi_v1 t=<ticket>` and `Ubi-SessionId: <sessionId>` — but
no longer `User-Agent`, which is dropped by the wholesale replacement. -/
theorem C9_session_headers (st : State) (b : Bundle) (t s u : Val)
    (ht : b.ticket = some t) (hs : b.sessionId = some s) (hu : b.userId = some u) :
    hget initHeaders "Ubi-AppId" = some CLUB_APPID ∧
    hget initHeaders "User-Agent" = some CHROME_USERAGENT ∧
    hget (restore_credentials b st).2.headers "Authorization"
        = some (.vstr ("Ubi_v1 t=" ++ t.pyStr)) ∧
    hget (restore_credentials b st).2.headers "Ubi-SessionId" = some s ∧
    hget (restore_credentials b st).2.headers "Ubi-AppId" = some CLUB_APPID ∧
    hget (restore_credentials b st).2.headers "User-Agent" = none := by
  refine ⟨rfl, rfl, ?_⟩
  unfold restore_credentials
  rw [ht, hs, hu]
  repeat' split
  all_goals simp_all [restoredHeaders, hget, List.find?]

/-- C9 witness: restoring the concrete bundle over the `__init__` state
yields exactly the three authenticated headers and no `User-Agent`. -/
theorem C9_session_headers_witness :
    hget (restore_credentials bundleRequiredOnly initState).2.headers "Authorization"
        = some (.vstr ("Ubi_v1 t=" ++ (Val.vstr "tk").pyStr)) ∧
    hget (restore_credentials bundleRequiredOnly initState).2.headers "Ubi-SessionId"
        = some (.vstr "sid") ∧
    hget (restore_credentials bundleRequiredOnly initState).2.headers "User-Agent"
        = none := by
  have h := C9_session_headers initState bundleRequiredOnly
      (.vstr "tk") (.vstr "sid") (.vstr "uid") rfl rfl rfl
  exact ⟨h.2.2.1, h.2.2.2.1, h.2.2.2.2.2⟩

/-! ## C10 — `add_to_headers` without explicit headers mutates the session dict -/

/-- C10: when `_do_request` is called without an explicit `headers` kwarg,
`kwargs['headers']` is the session's default headers dict itself, so the
`add_to_headers` entries are written into the session's default headers
(the dict sent and the session dict stay one and the same object), a
subsequent default-headers request sends the mutated dict, and each added
entry is visible in the session headers afterwards; by contrast, with an
explicit `headers` dict the session state is untouched. -/
theorem C10_add_to_headers_shared (st : State) (add : List (String × Val))
    (resp resp2 : Except Err Val) :
    (do_request none add resp st).2.1.headers = (do_request none add resp st).2.2 ∧
    (do_request none add resp st).2.2 = hsetAll st.headers add ∧
    (do_request none [] resp2 (do_request none add resp st).2.1).2.2
        = (do_request none add resp st).2.2 ∧
    (∀ k v, add = [(k, v)] →
        hget (do_request none add resp st).2.1.headers k = some v) ∧
    (∀ h, (do_request (some h) add resp st).2.1 = st) := by
  refine ⟨rfl, rfl, rfl, ?_, fun h => rfl⟩
  rintro k v rfl
  simpa [do_request, hsetAll] using hget_hset st.headers k v

/-- C10 witness: adding the `Ubi-RequestedPlatformType` header (as
`get_game_stats` does) without an explicit `headers` kwarg leaves it in
the session's default headers. -/
theorem C10_add_to_headers_shared_witness :
    hget (do_request none [("Ubi-RequestedPlatformType", .vstr "uplay")]
          (.ok (.vstr "resp")) initState).2.1.headers "Ubi-RequestedPlatformType"
      = some (.vstr "uplay") :=
  (C10_add_to_headers_shared initState [("Ubi-RequestedPlatformType", .vstr "uplay")]
      (.ok (.vstr "resp")) (.ok (.vstr "resp"))).2.2.2.1
    "Ubi-RequestedPlatformType" (.vstr "uplay") rfl
